import Mathlib

/-!
Verification of the registration/payment reconciliation workflow of the
`ai-automation-for-non-coders` repository.

The development shallowly embeds the four request handlers that carry the
state-transition logic of the system:

* `registration_handler`  — src/lambda/registration-handler.py, `lambda_handler`
* `livestream_handler`    — src/lambda/livestream-handler.py, `lambda_handler`
* `payment_webhook`       — src/lambda/payment-webhook.py, `lambda_handler`
* `referral_handler`      — src/lambda/referral-handler.py, `lambda_handler`

The DynamoDB table `course_registrations` is modelled as a list of items;
`get_item`, `put_item`, the registration-id GSI query and the payment
`update_item` are modelled as pure list operations.  Fresh UUIDs and
timestamps are injected as arguments.  Outbound side effects (SES email,
Meta Conversions API) do not touch the table; whether a given outbound call
raises an exception is injected through an effect record, because the
handlers' control flow (try/except placement) depends on it.  Python
`Decimal` amounts are modelled as exact rationals.
-/

namespace Spec2Proof

/-- Python `str.lower()` on the ASCII range (`Char.toLower`), written as a
structural map over the character list so that it evaluates inside the
kernel. -/
def py_lower (s : String) : String := ⟨s.data.map Char.toLower⟩

/-- Python `str.strip()`: drop whitespace from both ends, written
structurally over the character list. -/
def py_strip (s : String) : String :=
  ⟨((s.data.dropWhile Char.isWhitespace).reverse.dropWhile Char.isWhitespace).reverse⟩

/-- Python slicing `s[:n]`, written structurally over the character list. -/
def py_take (s : String) (n : Nat) : String := ⟨s.data.take n⟩

/-- A row of the `course_registrations` DynamoDB table.  The composite key is
(`course_id`, `email`).  Attributes that some writers leave absent are
`Option`s; the remaining string attributes default to `""` exactly where the
source writes `body.get(field, "")`. -/
structure Item where
  course_id : String
  email : String
  registration_id : String
  payment_status : String
  name : String := ""
  phone : String := ""
  company : String := ""
  job_title : String := ""
  referral_source : Option String := none
  automation_interest : String := ""
  dietary_requirements : String := ""
  registration_date : String := ""
  stripe_session_id : String := ""
  registration_type : Option String := none
  payment_amount : Option ℚ := none
  experience : String := ""
  automation_barriers : String := ""
  time_commitment : String := ""
  attendance_confirmed : Bool := false
  consent_given : Bool := false
  amount_paid : Option ℚ := none
  payment_date : Option String := none
deriving Repr, DecidableEq

/-- `table.get_item(Key={"course_id": cid, "email": email})`. -/
def get_item (db : List Item) (cid email : String) : Option Item :=
  db.find? (fun it => it.course_id == cid && it.email == email)

/-- `table.put_item(Item=item)`: DynamoDB replaces the item stored under the
same composite key. -/
def put_item (db : List Item) (item : Item) : List Item :=
  item :: db.filter (fun it => !(it.course_id == item.course_id && it.email == item.email))

/-- `table.query(IndexName="registration-id-index", ...)`: all items whose
`registration_id` equals the argument. -/
def query_registration_id (db : List Item) (rid : String) : List Item :=
  db.filter (fun it => it.registration_id == rid)

/-- `table.scan(FilterExpression=Attr('registration_id').eq(aid))`. -/
def scan_registration_id (db : List Item) (aid : String) : List Item :=
  db.filter (fun it => it.registration_id == aid)

/-- The fixed allow-list of course identifiers
(registration-handler.py line 42). -/
def valid_course_ids : List String :=
  ["01_ai_automation_for_non_coders", "test-course", "tax-livestream-01"]

/-- Parsed JSON body of a registration submission
(registration-handler.py).  `none` models an absent key.  `email` and `name`
are read with `body[...]` in the source, so their absence raises `KeyError`
and is answered by the generic 500 handler; every other field is read with
`body.get(...)`. -/
structure RegSubmission where
  email : Option String := none
  course_id : Option String := none
  applicant_id : Option String := none
  name : Option String := none
  phone : Option String := none
  company : Option String := none
  job_title : Option String := none
  referral_source : Option String := none
  automation_interest : Option String := none
  dietary_requirements : Option String := none
deriving Repr, DecidableEq

/-- Response of the registration handler together with the table state after
the call.  `error` is the machine-readable `error` field of the JSON body. -/
structure RegResult where
  statusCode : Nat
  error : Option String
  registration_id : Option String
  db : List Item
deriving Repr, DecidableEq

/-- Applicant verification step (registration-handler.py lines 58-130):
scan by `registration_id`, take the first hit, require `payment_status ==
'pending'` and a matching email.  Returns the error code when the step
rejects.  Python truthiness of `if applicant_id:` makes the empty string
skip the step. -/
def applicant_check (db : List Item) (aid : Option String) (email : String) : Option String :=
  match aid with
  | none => none
  | some a =>
    if a = "" then none
    else
      match (scan_registration_id db a).head? with
      | none => some "invalid_application"
      | some app =>
        if app.payment_status ≠ "pending" then some "invalid_application_status"
        else if app.email ≠ email then some "email_mismatch"
        else none

/-- The item written by the registration handler
(registration-handler.py lines 166-180).  `referral_source` is the constant
`"direct"`; the caller-supplied value is never consulted. -/
def mk_registration_item (sub : RegSubmission) (cid email nm fresh_id ts : String) : Item :=
  { course_id := cid
    email := email
    registration_id := fresh_id
    name := nm
    phone := sub.phone.getD ""
    company := sub.company.getD ""
    job_title := sub.job_title.getD ""
    referral_source := some "direct"
    automation_interest := sub.automation_interest.getD ""
    dietary_requirements := sub.dietary_requirements.getD ""
    payment_status := "pending"
    registration_date := ts
    stripe_session_id := "" }

/-- Tail of the handler once validation and the duplicate check have passed:
read `body["name"]` (KeyError becomes the generic 500), build the item and
`put_item` it (registration-handler.py lines 163-219).  The Meta Conversions
API call after the write sits in its own try/except and cannot change the
response or the table. -/
def finish_registration (db : List Item) (sub : RegSubmission)
    (cid email fresh_id ts : String) : RegResult :=
  match sub.name with
  | none => { statusCode := 500, error := some "Internal server error",
              registration_id := none, db := db }
  | some nm =>
    { statusCode := 200, error := none, registration_id := some fresh_id,
      db := put_item db (mk_registration_item sub cid email nm fresh_id ts) }

/-- `lambda_handler` of src/lambda/registration-handler.py.  The check order
is that of the source: email parse, `dietary_requirements` presence,
`course_id` allow-list, applicant verification, duplicate lookup, write. -/
def registration_handler (db : List Item) (sub : RegSubmission) (fresh_id ts : String) : RegResult :=
  match sub.email with
  | none => { statusCode := 500, error := some "Internal server error",
              registration_id := none, db := db }
  | some raw =>
    let email := py_lower raw
    if sub.dietary_requirements.getD "" = "" then
      { statusCode := 400, error := some "missing_required_field",
        registration_id := none, db := db }
    else
      match sub.course_id with
      | none => { statusCode := 400, error := some "invalid_course_id",
                  registration_id := none, db := db }
      | some cid =>
        if cid ∉ valid_course_ids then
          { statusCode := 400, error := some "invalid_course_id",
            registration_id := none, db := db }
        else
          match applicant_check db sub.applicant_id email with
          | some err => { statusCode := 400, error := some err,
                          registration_id := none, db := db }
          | none =>
            match get_item db cid email with
            | some existing =>
              if existing.payment_status = "paid" then
                { statusCode := 400, error := some "email_already_registered",
                  registration_id := none, db := db }
              else finish_registration db sub cid email fresh_id ts
            | none => finish_registration db sub cid email fresh_id ts

/-! ### Livestream / application handler (src/lambda/livestream-handler.py) -/

/-- Parsed request of the livestream/application handler.  `hasBody` is
`event['body']` being present and non-empty, `bodyParses` whether
`json.loads` succeeds; the remaining fields are the parsed JSON body with
`none` for an absent key. -/
structure LsSubmission where
  httpMethod : String := "POST"
  hasBody : Bool := true
  bodyParses : Bool := true
  name : Option String := none
  email : Option String := none
  registration_type : Option String := none
  phone : Option String := none
  company : Option String := none
  jobTitle : Option String := none
  experience : Option String := none
  automationInterest : Option String := none
  automationBarriers : Option String := none
  timeCommitment : Option String := none
  attendance : Option Bool := none
  consent : Option Bool := none
deriving Repr, DecidableEq

/-- Response of the livestream handler plus resulting table state. -/
structure LsResult where
  statusCode : Nat
  error : Option String
  registration_id : Option String
  db : List Item
deriving Repr, DecidableEq

/-- Fixed course id per registration type
(livestream-handler.py lines 73-82). -/
def ls_course_id (rt : String) : String :=
  if rt = "application" then "01_ai_automation_for_non_coders" else "tax-livestream-01"

/-- Status written per registration type (livestream-handler.py lines 75-82):
`applied` for applications, `paid` for the free livestream. -/
def ls_payment_status (rt : String) : String :=
  if rt = "application" then "applied" else "paid"

/-- The item written by the livestream handler (lines 110-137): base fields
for every type, application-specific profile fields only when
`registration_type == 'application'`. -/
def mk_livestream_item (sub : LsSubmission) (rt cid email nm fresh_id ts : String) : Item :=
  let base : Item :=
    { course_id := cid
      email := email
      registration_id := fresh_id
      name := nm
      payment_status := ls_payment_status rt
      payment_amount := some 0
      registration_date := ts
      registration_type := some rt
      stripe_session_id := "" }
  if rt = "application" then
    { base with
      phone := sub.phone.getD ""
      company := sub.company.getD ""
      job_title := sub.jobTitle.getD ""
      experience := sub.experience.getD ""
      referral_source := some "applied"
      automation_interest := sub.automationInterest.getD ""
      automation_barriers := sub.automationBarriers.getD ""
      time_commitment := sub.timeCommitment.getD ""
      attendance_confirmed := sub.attendance.getD false
      consent_given := sub.consent.getD false
      dietary_requirements := "none" }
  else base

/-- `lambda_handler` of src/lambda/livestream-handler.py.  All three outbound
side effects (user email, admin email, Meta event) sit in their own
try/except blocks after the write, so they change neither the response nor
the table and are not modelled. -/
def livestream_handler (db : List Item) (sub : LsSubmission) (fresh_id ts : String) : LsResult :=
  if sub.httpMethod = "OPTIONS" then
    { statusCode := 200, error := none, registration_id := none, db := db }
  else if !sub.hasBody then
    { statusCode := 400, error := some "Missing request body", registration_id := none, db := db }
  else if !sub.bodyParses then
    { statusCode := 400, error := some "Invalid JSON in request body", registration_id := none, db := db }
  else if (sub.name.getD "") = "" ∨ py_strip (sub.name.getD "") = "" then
    { statusCode := 400, error := some "Missing required field: name", registration_id := none, db := db }
  else if (sub.email.getD "") = "" ∨ py_strip (sub.email.getD "") = "" then
    { statusCode := 400, error := some "Missing required field: email", registration_id := none, db := db }
  else
    let email := py_lower (py_strip (sub.email.getD ""))
    let nm := py_strip (sub.name.getD "")
    let rt := sub.registration_type.getD "livestream"
    let cid := ls_course_id rt
    match get_item db cid email with
    | some _ =>
      { statusCode := 409, error := some "Registration already exists for this email",
        registration_id := none, db := db }
    | none =>
      { statusCode := 200, error := none, registration_id := some fresh_id,
        db := put_item db (mk_livestream_item sub rt cid email nm fresh_id ts) }

/-! ### Payment reconciliation webhook (src/lambda/payment-webhook.py) -/

/-- The fields of the Stripe checkout session object the handler reads.
`customer_email` carries `session.get("customer_details", {}).get("email",
"")` (so `""` when absent) and `amount_total` carries
`session.get("amount_total", 0)` in minor currency units. -/
structure StripeSession where
  id : String := ""
  customer_email : String := ""
  client_reference_id : Option String := none
  amount_total : ℤ := 0
deriving Repr, DecidableEq

/-- An inbound webhook request. `signature_valid` abstracts
`stripe.Webhook.construct_event`: `false` makes it raise
`SignatureVerificationError`. -/
structure WebhookEvent where
  sig_header : Option String := some "sig"
  signature_valid : Bool := true
  event_type : String := "checkout.session.completed"
  session : StripeSession := {}
deriving Repr, DecidableEq

/-- Whether each outbound call raises.  The two `ses_client.send_email`
calls (lines 127-161) are NOT inside a try/except; the Meta Conversions API
call (lines 163-182) is. -/
structure WebhookEffects where
  user_email_raises : Bool := false
  admin_email_raises : Bool := false
  meta_raises : Bool := false
deriving Repr, DecidableEq

/-- Webhook response plus resulting table state.  `received` is the
`{"received": true}` success body. -/
structure WhResult where
  statusCode : Nat
  received : Bool
  error : Option String
  db : List Item
deriving Repr, DecidableEq

/-- `table.update_item` of payment-webhook.py lines 109-121: on the item
stored under (`cid`, `email`) set `payment_status = 'paid'`, `payment_date`,
`stripe_session_id` and `amount_paid` (Python `Decimal(str(amount)) /
Decimal("100")`, exact for any realistic amount, modelled as an exact
rational).  In this code path the key always names an existing item, so the
DynamoDB upsert case does not arise. -/
def update_payment (db : List Item) (cid email : String) (pd sid : String) (amt : ℚ) : List Item :=
  db.map (fun it =>
    if it.course_id == cid && it.email == email then
      { it with payment_status := "paid", payment_date := some pd,
                stripe_session_id := sid, amount_paid := some amt }
    else it)

/-- `lambda_handler` of src/lambda/payment-webhook.py.  Resolution prefers
the `registration-id-index` GSI keyed on `client_reference_id`, falling back
to a `get_item` on the default course and the notification's billing email.
An exception from either SES send lands in the generic `except Exception`
and yields a 500, after the table has already been mutated. -/
def payment_webhook (db : List Item) (ev : WebhookEvent) (eff : WebhookEffects)
    (now : String) : WhResult :=
  match ev.sig_header with
  | none => { statusCode := 400, received := false, error := some "Missing signature header", db := db }
  | some _ =>
    if !ev.signature_valid then
      { statusCode := 400, received := false, error := some "Invalid signature", db := db }
    else if ev.event_type = "checkout.session.completed" then
      match (match ev.session.client_reference_id with
             | some rid => (query_registration_id db rid).head?
             | none => get_item db "01_ai_automation_for_non_coders"
                 (py_lower ev.session.customer_email)) with
      | none =>
        { statusCode := 404, received := false, error := some "Registration not found", db := db }
      | some item =>
        let amt : ℚ := (ev.session.amount_total : ℚ) / 100
        let db2 := update_payment db item.course_id item.email now ev.session.id amt
        if eff.user_email_raises || eff.admin_email_raises then
          { statusCode := 500, received := false, error := some "Internal server error", db := db2 }
        else
          { statusCode := 200, received := true, error := none, db := db2 }
    else
      { statusCode := 200, received := true, error := none, db := db }

/-! ### Referral event recorder (src/lambda/referral-handler.py) -/

/-- A row of the referral events table. -/
structure ReferralItem where
  event_id : String
  event_name : String
  referral_code : String
  timestamp : String
  user_agent : String
  source_ip : String
deriving Repr, DecidableEq

/-- Parsed JSON body of a referral event request. -/
structure ReferralBody where
  event_name : Option String := none
  referral_code : Option String := none
deriving Repr, DecidableEq

/-- Referral recorder response plus resulting events table. -/
structure ReferralResult where
  statusCode : Nat
  error : Option String
  event_id : Option String
  db : List ReferralItem
deriving Repr, DecidableEq

/-- Character class `[a-zA-Z0-9_-]`. -/
def code_char_ok (c : Char) : Bool :=
  (('a' ≤ c && c ≤ 'z') || ('A' ≤ c && c ≤ 'Z') || ('0' ≤ c && c ≤ '9')
    || c == '_' || c == '-')

/-- Python `re.match(r'^[a-zA-Z0-9_-]+$', s)` as a Boolean.  In Python, `$`
matches at the end of the string and also immediately before a single
newline that ends the string, so `"abc\n"` is accepted by the source's
pattern even though `\n` is outside the character class. -/
def code_pattern_matches (s : String) : Bool :=
  let cs := s.data
  (!cs.isEmpty && cs.all code_char_ok)
    || (match cs.getLast? with
        | some '\n' => !cs.dropLast.isEmpty && cs.dropLast.all code_char_ok
        | _ => false)

/-- The referral item written on success (referral-handler.py lines 79-86);
the user agent is truncated to 200 characters. -/
def mk_referral_item (event_id event_name referral_code ts ua ip : String) : ReferralItem :=
  { event_id := event_id, event_name := event_name, referral_code := referral_code,
    timestamp := ts, user_agent := py_take ua 200, source_ip := ip }

/-- `lambda_handler` of src/lambda/referral-handler.py: presence check
(Python truthiness, so `""` counts as missing), length bound of 100 on both
fields, then the character-class pattern on the code, then the write. -/
def referral_handler (db : List ReferralItem) (body : ReferralBody)
    (fresh_id ts ua ip : String) : ReferralResult :=
  let event_name := body.event_name.getD ""
  let referral_code := body.referral_code.getD ""
  if event_name = "" ∨ referral_code = "" then
    { statusCode := 400, error := some "Missing required fields: event_name and referral_code",
      event_id := none, db := db }
  else if referral_code.length > 100 ∨ event_name.length > 100 then
    { statusCode := 400, error := some "Field values too long", event_id := none, db := db }
  else if !code_pattern_matches referral_code then
    { statusCode := 400, error := some "Invalid referral code format", event_id := none, db := db }
  else
    { statusCode := 200, error := none, event_id := some fresh_id,
      db := mk_referral_item fresh_id event_name referral_code ts ua ip :: db }

/-! ### Auxiliary definitions and concrete instances used by the theorems -/

/-- Key uniqueness of the registrations table: DynamoDB guarantees at most
one item per composite key (`course_id`, `email`). -/
def NoDupKeys (db : List Item) : Prop :=
  db.Pairwise (fun a b => a.course_id ≠ b.course_id ∨ a.email ≠ b.email)

instance (db : List Item) : Decidable (NoDupKeys db) :=
  List.instDecidablePairwise db

/-- A record that has already been paid for. -/
def wPaidRec : Item :=
  { course_id := "test-course", email := "a@x.com", registration_id := "R1",
    payment_status := "paid", name := "Alice" }

/-- A pending record awaiting payment. -/
def wPendingRec : Item :=
  { course_id := "test-course", email := "a@x.com", registration_id := "R1",
    payment_status := "pending", name := "Alice" }

/-- An application-flow record in `applied` status. -/
def wAppliedRec : Item :=
  { course_id := "01_ai_automation_for_non_coders", email := "b@x.com",
    registration_id := "R2", payment_status := "applied", name := "Bob" }

/-- A well-formed course registration submission; note the caller-supplied
`referral_source`, which the handler ignores. -/
def wRegSub : RegSubmission :=
  { email := some "A@x.com", course_id := some "test-course", name := some "Alice",
    dietary_requirements := some "none", referral_source := some "facebook" }

/-- A submission with an invalid course id and no dietary requirements. -/
def wNoDietSub : RegSubmission :=
  { email := some "a@x.com", course_id := some "bogus-course" }

/-- A submission with an invalid course id but dietary requirements given. -/
def wBadCourseSub : RegSubmission :=
  { email := some "a@x.com", course_id := some "bogus-course", name := some "Alice",
    dietary_requirements := some "none" }

/-- A checkout session referencing `wPendingRec` with 61200 minor units. -/
def wSession : StripeSession :=
  { id := "cs_1", customer_email := "A@x.com", client_reference_id := some "R1",
    amount_total := 61200 }

/-- A validly signed `checkout.session.completed` event for `wSession`. -/
def wEvent : WebhookEvent := { session := wSession }

/-- The same notification with a signature that fails verification. -/
def wBadSigEvent : WebhookEvent := { signature_valid := false, session := wSession }

/-- A validly signed event of a different type. -/
def wOtherTypeEvent : WebhookEvent := { event_type := "invoice.paid", session := wSession }

/-- A validly signed completed-checkout event referencing `wAppliedRec`. -/
def wAppliedEvent : WebhookEvent :=
  { session := { id := "cs_2", client_reference_id := some "R2", amount_total := 5000 } }

/-- Effects where only the Meta Conversions call raises. -/
def wMetaFailEff : WebhookEffects := { meta_raises := true }

/-- Effects where the user confirmation email raises. -/
def wEmailFailEff : WebhookEffects := { user_email_raises := true }

/-- A livestream submission whose key collides with `wLsRec`. -/
def wLsSub : LsSubmission := { name := some "Alice", email := some "A@x.com" }

/-- An existing livestream registration. -/
def wLsRec : Item :=
  { course_id := "tax-livestream-01", email := "a@x.com", registration_id := "R3",
    payment_status := "paid", name := "Alice" }

/-- The referral body whose code carries a trailing newline. -/
def wNewlineBody : ReferralBody :=
  { event_name := some "click", referral_code := some "abc\n" }

/-- What `wAppliedRec` becomes after `wAppliedEvent` is processed. -/
def wMutatedApplied : Item :=
  { wAppliedRec with
    payment_status := "paid"
    payment_date := some "T"
    stripe_session_id := "cs_2"
    amount_paid := some (((5000 : Int) : ℚ) / 100) }

/-! ### Shared lemmas about the table operations -/

/-- Everything in a `put_item` result is the written item or was already
stored. -/
theorem mem_put_item {db : List Item} {item it : Item}
    (h : it ∈ put_item db item) : it = item ∨ it ∈ db := by
  rcases List.mem_cons.mp h with rfl | h'
  · exact Or.inl rfl
  · exact Or.inr (List.mem_of_mem_filter h')

/-- Everything in an `update_payment` result was already stored or now has
status `paid`. -/
theorem mem_update_payment {db : List Item} {c e pd sid : String} {amt : ℚ} {it : Item}
    (h : it ∈ update_payment db c e pd sid amt) : it ∈ db ∨ it.payment_status = "paid" := by
  rcases List.mem_map.mp h with ⟨x, hx, rfl⟩
  split
  · exact Or.inr rfl
  · exact Or.inl hx

/-- `update_payment` changes no key attribute, so a `get_item` on the
updated table returns the updated version of whatever `get_item` returned
before. -/
theorem get_item_update_payment (db : List Item) (c e pd sid : String) (amt : ℚ) :
    get_item (update_payment db c e pd sid amt) c e =
      (get_item db c e).map (fun r =>
        { r with payment_status := "paid", payment_date := some pd,
                 stripe_session_id := sid, amount_paid := some amt }) := by
  unfold get_item update_payment
  rw [List.find?_map]
  have hp : ((fun it : Item => it.course_id == c && it.email == e) ∘
      (fun it : Item =>
        if it.course_id == c && it.email == e then
          { it with payment_status := "paid", payment_date := some pd,
                    stripe_session_id := sid, amount_paid := some amt }
        else it)) = (fun it : Item => it.course_id == c && it.email == e) := by
    funext it
    by_cases h : (it.course_id == c && it.email == e) = true
    · simp only [Function.comp_apply, if_pos h]
    · simp only [Function.comp_apply, if_neg h]
  rw [hp]
  cases hfind : db.find? (fun it : Item => it.course_id == c && it.email == e) with
  | none => rfl
  | some r =>
    have hr := List.find?_some hfind
    dsimp only [Option.map]
    rw [if_pos hr]

/-- Under key uniqueness, a stored record is exactly what `get_item` returns
for its own key. -/
theorem get_item_eq_of_mem {db : List Item} (hnd : NoDupKeys db) {rec : Item}
    (hm : rec ∈ db) : get_item db rec.course_id rec.email = some rec := by
  induction db with
  | nil => cases hm
  | cons a l ih =>
    rcases List.mem_cons.mp hm with rfl | hm'
    · unfold get_item
      rw [List.find?_cons_of_pos]
      simp
    · have hpair := List.pairwise_cons.mp hnd
      have hrel := hpair.1 rec hm'
      unfold get_item
      rw [List.find?_cons_of_neg]
      · exact ih hpair.2 hm'
      · simp only [Bool.and_eq_true, beq_iff_eq, not_and]
        intro h1 h2
        rcases hrel with h | h
        · exact h h1
        · exact h h2

/-- A singleton GSI query result is a stored record. -/
theorem mem_of_query_singleton {db : List Item} {rid : String} {rec : Item}
    (h : query_registration_id db rid = [rec]) : rec ∈ db := by
  have : rec ∈ query_registration_id db rid := by
    rw [h]; exact List.mem_singleton_self rec
  exact List.mem_of_mem_filter this

/-- The registration handler either leaves the table unchanged or writes
exactly one `mk_registration_item` under the submission's key, and it only
writes when the submission parses, the course id is valid and no `paid`
record occupies the key. -/
theorem registration_write_characterization (db : List Item) (sub : RegSubmission)
    (fresh_id ts : String) :
    (registration_handler db sub fresh_id ts).db = db ∨
    ∃ em cid nm, sub.email = some em ∧ sub.course_id = some cid ∧ sub.name = some nm ∧
      cid ∈ valid_course_ids ∧
      (∀ r, get_item db cid (py_lower em) = some r → r.payment_status ≠ "paid") ∧
      (registration_handler db sub fresh_id ts).db =
        put_item db (mk_registration_item sub cid (py_lower em) nm fresh_id ts) := by
  unfold registration_handler
  cases hem : sub.email with
  | none => exact Or.inl rfl
  | some raw =>
    dsimp only
    by_cases hd : sub.dietary_requirements.getD "" = ""
    · rw [if_pos hd]; exact Or.inl rfl
    · rw [if_neg hd]
      cases hcid : sub.course_id with
      | none => exact Or.inl rfl
      | some cid =>
        dsimp only
        by_cases hv : cid ∉ valid_course_ids
        · rw [if_pos hv]; exact Or.inl rfl
        · rw [if_neg hv]
          cases hac : applicant_check db sub.applicant_id (py_lower raw) with
          | some err => exact Or.inl rfl
          | none =>
            dsimp only
            cases hget : get_item db cid (py_lower raw) with
            | some existing =>
              dsimp only
              by_cases hp : existing.payment_status = "paid"
              · rw [if_pos hp]; exact Or.inl rfl
              · rw [if_neg hp]
                unfold finish_registration
                cases hnm : sub.name with
                | none => exact Or.inl rfl
                | some nm =>
                  refine Or.inr ⟨raw, cid, nm, rfl, rfl, rfl, not_not.mp hv, ?_, rfl⟩
                  intro r hr
                  rw [hget] at hr
                  cases hr
                  exact hp
            | none =>
              dsimp only
              unfold finish_registration
              cases hnm : sub.name with
              | none => exact Or.inl rfl
              | some nm =>
                refine Or.inr ⟨raw, cid, nm, rfl, rfl, rfl, not_not.mp hv, ?_, rfl⟩
                intro r hr
                rw [hget] at hr
                cases hr

/-- The webhook either leaves the table unchanged or applies exactly one
`update_payment`. -/
theorem webhook_db_cases (db : List Item) (ev : WebhookEvent) (eff : WebhookEffects)
    (now : String) :
    (payment_webhook db ev eff now).db = db ∨
    ∃ c e sid amt, (payment_webhook db ev eff now).db = update_payment db c e now sid amt := by
  unfold payment_webhook
  cases hs : ev.sig_header with
  | none => exact Or.inl rfl
  | some s =>
    dsimp only
    cases hv : ev.signature_valid with
    | false => exact Or.inl rfl
    | true =>
      rw [if_neg (by simp)]
      by_cases ht : ev.event_type = "checkout.session.completed"
      · rw [if_pos ht]
        cases hres : (match ev.session.client_reference_id with
          | some rid => (query_registration_id db rid).head?
          | none => get_item db "01_ai_automation_for_non_coders"
              (py_lower ev.session.customer_email)) with
        | none => exact Or.inl rfl
        | some item =>
          dsimp only
          refine Or.inr ⟨item.course_id, item.email, ev.session.id,
            (ev.session.amount_total : ℚ) / 100, ?_⟩
          split <;> rfl
      · rw [if_neg ht]
        exact Or.inl rfl

/-! ### Claim theorems: registration handler -/

/-- C1: a registration submission whose (course_id, lower-cased email) key
holds a `paid` record leaves the table unchanged, and — when it passes field
validation (dietary requirements present, course id allow-listed, applicant
verification not rejecting) — is answered with 400
`email_already_registered`; a record in any non-`paid` status (`pending`,
`applied`) is instead overwritten by such a submission with a fresh item. -/
theorem registration_paid_record_protected (db : List Item) (sub : RegSubmission)
    (fresh_id ts : String) (em cid : String) (rec : Item)
    (hem : sub.email = some em) (hcid : sub.course_id = some cid)
    (hrec : get_item db cid (py_lower em) = some rec) :
    (rec.payment_status = "paid" →
      (registration_handler db sub fresh_id ts).db = db ∧
      (sub.dietary_requirements.getD "" ≠ "" →
        cid ∈ valid_course_ids →
        applicant_check db sub.applicant_id (py_lower em) = none →
        (registration_handler db sub fresh_id ts).statusCode = 400 ∧
        (registration_handler db sub fresh_id ts).error = some "email_already_registered")) ∧
    (rec.payment_status ≠ "paid" →
      sub.dietary_requirements.getD "" ≠ "" →
      cid ∈ valid_course_ids →
      applicant_check db sub.applicant_id (py_lower em) = none →
      ∀ nm, sub.name = some nm →
        (registration_handler db sub fresh_id ts).statusCode = 200 ∧
        (registration_handler db sub fresh_id ts).db =
          put_item db (mk_registration_item sub cid (py_lower em) nm fresh_id ts)) := by
  constructor
  · intro hpaid
    constructor
    · rcases registration_write_characterization db sub fresh_id ts with h |
        ⟨em', cid', nm', hem', hcid', hnm', hvc', hblock, hdb⟩
      · exact h
      · have h1 : some em = some em' := hem.symm.trans hem'
        have h2 : some cid = some cid' := hcid.symm.trans hcid'
        injection h1 with h1'
        injection h2 with h2'
        subst h1'
        subst h2'
        exact absurd hpaid (hblock rec hrec)
    · intro hd hvc hac
      have h2 : registration_handler db sub fresh_id ts =
          { statusCode := 400, error := some "email_already_registered",
            registration_id := none, db := db } := by
        unfold registration_handler
        rw [hem]
        dsimp only
        rw [if_neg hd, hcid]
        dsimp only
        rw [if_neg (not_not_intro hvc), hac]
        dsimp only
        rw [hrec]
        dsimp only
        rw [if_pos hpaid]
      rw [h2]
      exact ⟨rfl, rfl⟩
  · intro hnp hd hvc hac nm hnm
    have h2 : registration_handler db sub fresh_id ts =
        { statusCode := 200, error := none, registration_id := some fresh_id,
          db := put_item db (mk_registration_item sub cid (py_lower em) nm fresh_id ts) } := by
      unfold registration_handler
      rw [hem]
      dsimp only
      rw [if_neg hd, hcid]
      dsimp only
      rw [if_neg (not_not_intro hvc), hac]
      dsimp only
      rw [hrec]
      dsimp only
      rw [if_neg hnp]
      unfold finish_registration
      rw [hnm]
    rw [h2]
    exact ⟨rfl, rfl⟩

/-- C1 witness: a paid record blocks a concrete valid resubmission
unchanged, while the same submission overwrites a pending record. -/
theorem registration_paid_record_protected_witness :
    ((registration_handler [wPaidRec] wRegSub "F2" "T2").db = [wPaidRec] ∧
     (registration_handler [wPaidRec] wRegSub "F2" "T2").error = some "email_already_registered") ∧
    (registration_handler [wPendingRec] wRegSub "F2" "T2").db =
      put_item [wPendingRec]
        (mk_registration_item wRegSub "test-course" (py_lower "A@x.com") "Alice" "F2" "T2") := by
  have hp := registration_paid_record_protected [wPaidRec] wRegSub "F2" "T2" "A@x.com"
    "test-course" wPaidRec rfl rfl (by decide)
  have hq := registration_paid_record_protected [wPendingRec] wRegSub "F2" "T2" "A@x.com"
    "test-course" wPendingRec rfl rfl (by decide)
  refine ⟨⟨(hp.1 rfl).1, ((hp.1 rfl).2 (by decide) (by decide) (by decide)).2⟩, ?_⟩
  exact (hq.2 (by decide) (by decide) (by decide) (by decide) "Alice" rfl).2

/-- C6 counterexample: a submission whose course id is invalid but whose
dietary-requirements field is missing is answered with
`missing_required_field`, not `invalid_course_id` — the dietary check at
lines 26-39 runs before the allow-list check at lines 41-56, so the claim's
"regardless of the other fields" fails. -/
theorem registration_invalid_course_cex :
    wNoDietSub.course_id = some "bogus-course" ∧
    "bogus-course" ∉ valid_course_ids ∧
    (registration_handler [] wNoDietSub "F1" "T1").error = some "missing_required_field" ∧
    ¬((registration_handler [] wNoDietSub "F1" "T1").error = some "invalid_course_id") := by
  decide

/-- C6 (amended): a submission whose course id is outside the allow-list
never writes to the table, and — provided the body carries an email and a
non-empty dietary-requirements field — is answered 400 `invalid_course_id`. -/
theorem registration_invalid_course_rejected (db : List Item) (sub : RegSubmission)
    (fresh_id ts : String)
    (hinv : ∀ c, sub.course_id = some c → c ∉ valid_course_ids) :
    (registration_handler db sub fresh_id ts).db = db ∧
    (∀ em, sub.email = some em → sub.dietary_requirements.getD "" ≠ "" →
      (registration_handler db sub fresh_id ts).statusCode = 400 ∧
      (registration_handler db sub fresh_id ts).error = some "invalid_course_id") := by
  constructor
  · rcases registration_write_characterization db sub fresh_id ts with h |
      ⟨em, cid, nm, hem, hcid, hnm, hvc, hblock, hdb⟩
    · exact h
    · exact absurd hvc (hinv cid hcid)
  · intro em hem hd
    have h2 : registration_handler db sub fresh_id ts =
        { statusCode := 400, error := some "invalid_course_id",
          registration_id := none, db := db } := by
      unfold registration_handler
      rw [hem]
      dsimp only
      rw [if_neg hd]
      cases hcid : sub.course_id with
      | none => rfl
      | some cid =>
        dsimp only
        rw [if_pos (hinv cid hcid)]
    rw [h2]
    exact ⟨rfl, rfl⟩

/-- C6 witness: a concrete invalid-course submission with dietary
requirements present gets `invalid_course_id` and writes nothing. -/
theorem registration_invalid_course_rejected_witness :
    (registration_handler [wPaidRec] wBadCourseSub "F1" "T1").db = [wPaidRec] ∧
    (registration_handler [wPaidRec] wBadCourseSub "F1" "T1").statusCode = 400 ∧
    (registration_handler [wPaidRec] wBadCourseSub "F1" "T1").error = some "invalid_course_id" := by
  have h := registration_invalid_course_rejected [wPaidRec] wBadCourseSub "F1" "T1"
    (by intro c hc
        have h1 : some "bogus-course" = some c := hc
        injection h1 with h1'
        subst h1'
        decide)
  exact ⟨h.1, (h.2 "a@x.com" rfl (by decide)).1, (h.2 "a@x.com" rfl (by decide)).2⟩

/-- C10: every record the registration handler adds to the table carries
`referral_source = "direct"`, whatever `referral_source` the submission
supplied. -/
theorem registration_referral_source_always_direct (db : List Item) (sub : RegSubmission)
    (fresh_id ts : String) :
    ∀ it, it ∈ (registration_handler db sub fresh_id ts).db → it ∉ db →
      it.referral_source = some "direct" := by
  intro it hmem hnew
  rcases registration_write_characterization db sub fresh_id ts with h |
    ⟨em, cid, nm, hem, hcid, hnm, hvc, hblock, hdb⟩
  · rw [h] at hmem
    exact absurd hmem hnew
  · rw [hdb] at hmem
    rcases mem_put_item hmem with rfl | h'
    · rfl
    · exact absurd h' hnew

/-- C10 witness: a submission claiming `referral_source = "facebook"` still
produces a stored record with `referral_source = "direct"`. -/
theorem registration_referral_source_always_direct_witness :
    wRegSub.referral_source = some "facebook" ∧
    (mk_registration_item wRegSub "test-course" "a@x.com" "Alice" "F1" "T1").referral_source
      = some "direct" := by
  have h := registration_referral_source_always_direct [] wRegSub "F1" "T1"
  exact ⟨rfl, h (mk_registration_item wRegSub "test-course" "a@x.com" "Alice" "F1" "T1")
    (by decide) (by decide)⟩

/-! ### Claim theorems: payment reconciliation webhook -/

/-- C2: a validly signed `checkout.session.completed` notification whose
client reference id matches the `registration_id` of exactly one stored
record resolves that record through the registration-id index, returns 200
`received: true`, and the stored record becomes `paid` with `amount_paid`
the exact rational `amount_total / 100`, the payment timestamp and the
provider session id. -/
theorem payment_roundtrip_by_registration_id (db : List Item) (ev : WebhookEvent)
    (eff : WebhookEffects) (now s rid : String) (rec : Item)
    (hs : ev.sig_header = some s) (hv : ev.signature_valid = true)
    (ht : ev.event_type = "checkout.session.completed")
    (hrid : ev.session.client_reference_id = some rid)
    (hq : query_registration_id db rid = [rec])
    (hnd : NoDupKeys db)
    (hue : eff.user_email_raises = false) (hae : eff.admin_email_raises = false) :
    (payment_webhook db ev eff now).statusCode = 200 ∧
    (payment_webhook db ev eff now).received = true ∧
    get_item (payment_webhook db ev eff now).db rec.course_id rec.email =
      some { rec with
             payment_status := "paid"
             payment_date := some now
             stripe_session_id := ev.session.id
             amount_paid := some ((ev.session.amount_total : ℚ) / 100) } := by
  have hget : get_item db rec.course_id rec.email = some rec :=
    get_item_eq_of_mem hnd (mem_of_query_singleton hq)
  have h2 : payment_webhook db ev eff now =
      { statusCode := 200, received := true, error := none,
        db := update_payment db rec.course_id rec.email now ev.session.id
          ((ev.session.amount_total : ℚ) / 100) } := by
    unfold payment_webhook
    rw [hs]
    dsimp only
    rw [hv, if_neg (by simp), if_pos ht, hrid]
    dsimp only
    rw [show (query_registration_id db rid).head? = some rec from by rw [hq]; rfl]
    dsimp only
    rw [hue, hae]
    rfl
  rw [h2]
  refine ⟨rfl, rfl, ?_⟩
  rw [get_item_update_payment, hget]
  rfl

/-- C2 witness: the 61200-minor-unit notification for the pending record
lands as an exact 612. -/
theorem payment_roundtrip_by_registration_id_witness :
    ((payment_webhook [wPendingRec] wEvent {} "T").statusCode = 200 ∧
     (payment_webhook [wPendingRec] wEvent {} "T").received = true ∧
     get_item (payment_webhook [wPendingRec] wEvent {} "T").db "test-course" "a@x.com" =
       some { wPendingRec with
              payment_status := "paid"
              payment_date := some "T"
              stripe_session_id := "cs_1"
              amount_paid := some (((61200 : Int) : ℚ) / 100) }) ∧
    ((61200 : Int) : ℚ) / 100 = 612 := by
  have h := payment_roundtrip_by_registration_id [wPendingRec] wEvent {} "T" "sig" "R1"
    wPendingRec rfl rfl rfl rfl (by decide) (by decide) rfl rfl
  exact ⟨h, by norm_num⟩

/-- C3 counterexample: the webhook mutates a record whose status before the
call is `applied`, not `pending` — it applies the payment update without any
check of the prior status (payment-webhook.py lines 109-121). -/
theorem webhook_mutates_applied_record_cex :
    [wAppliedRec].map (fun it => it.payment_status) = ["applied"] ∧
    (payment_webhook [wAppliedRec] wAppliedEvent {} "T").statusCode = 200 ∧
    (payment_webhook [wAppliedRec] wAppliedEvent {} "T").db.map
      (fun it => it.payment_status) = ["paid"] ∧
    (payment_webhook [wAppliedRec] wAppliedEvent {} "T").db.map
      (fun it => it.registration_id) = ["R2"] := by
  decide

/-- C3 (amended): the webhook sets the resolved record's status to `paid`
unconditionally — every record of the resulting table is either untouched or
in status `paid`, with no precondition on the prior status (`pending`,
`applied` and already-`paid` records are all overwritten alike). -/
theorem webhook_unconditional_paid_transition (db : List Item) (ev : WebhookEvent)
    (eff : WebhookEffects) (now : String) :
    ∀ it, it ∈ (payment_webhook db ev eff now).db → it ∈ db ∨ it.payment_status = "paid" := by
  intro it hit
  rcases webhook_db_cases db ev eff now with h | ⟨c, e, sid, amt, h⟩
  · rw [h] at hit
    exact Or.inl hit
  · rw [h] at hit
    exact mem_update_payment hit

/-- C3 witness: the record the webhook produced from the `applied` one is in
status `paid`. -/
theorem webhook_unconditional_paid_transition_witness :
    wMutatedApplied ∈ [wAppliedRec] ∨ wMutatedApplied.payment_status = "paid" := by
  have h := webhook_unconditional_paid_transition [wAppliedRec] wAppliedEvent {} "T"
  exact h wMutatedApplied
    (by rw [show (payment_webhook [wAppliedRec] wAppliedEvent {} "T").db = [wMutatedApplied]
          from rfl]
        exact List.mem_singleton_self _)

/-- C4: a notification whose signature fails verification is answered 400
`Invalid signature` and the table is untouched. -/
theorem webhook_invalid_signature_no_mutation (db : List Item) (ev : WebhookEvent)
    (eff : WebhookEffects) (now s : String)
    (hs : ev.sig_header = some s) (hv : ev.signature_valid = false) :
    (payment_webhook db ev eff now).statusCode = 400 ∧
    (payment_webhook db ev eff now).error = some "Invalid signature" ∧
    (payment_webhook db ev eff now).db = db := by
  have h2 : payment_webhook db ev eff now =
      { statusCode := 400, received := false, error := some "Invalid signature", db := db } := by
    unfold payment_webhook
    rw [hs]
    dsimp only
    rw [hv]
    rfl
  rw [h2]
  exact ⟨rfl, rfl, rfl⟩

/-- C4 witness: a concretely tampered notification changes nothing. -/
theorem webhook_invalid_signature_no_mutation_witness :
    (payment_webhook [wPendingRec] wBadSigEvent {} "T").statusCode = 400 ∧
    (payment_webhook [wPendingRec] wBadSigEvent {} "T").error = some "Invalid signature" ∧
    (payment_webhook [wPendingRec] wBadSigEvent {} "T").db = [wPendingRec] :=
  webhook_invalid_signature_no_mutation [wPendingRec] wBadSigEvent {} "T" "sig" rfl rfl

/-- C5 counterexample: when the confirmation email raises, the handler does
NOT keep its 200 — the SES sends at payment-webhook.py lines 127-161 sit
outside any local try/except, so the generic handler turns the failure into
a 500 even though the claim promises an unaffected success response. -/
theorem webhook_email_failure_not_isolated_cex :
    (payment_webhook [wPendingRec] wEvent wEmailFailEff "T").statusCode = 500 ∧
    ¬((payment_webhook [wPendingRec] wEvent wEmailFailEff "T").statusCode = 200) ∧
    (payment_webhook [wPendingRec] wEvent wEmailFailEff "T").error
      = some "Internal server error" := by
  decide

/-- C5 (amended): after a resolved notification the mutation is applied
first; a Meta-analytics failure is swallowed (the 200 stands, whatever
`meta_raises` is), but a failure of either SES email send propagates to the
generic handler and yields a 500 — with the database already mutated. -/
theorem webhook_side_effect_policy (db : List Item) (ev : WebhookEvent)
    (eff : WebhookEffects) (now s rid : String) (rec : Item)
    (hs : ev.sig_header = some s) (hv : ev.signature_valid = true)
    (ht : ev.event_type = "checkout.session.completed")
    (hrid : ev.session.client_reference_id = some rid)
    (hq : (query_registration_id db rid).head? = some rec) :
    ((payment_webhook db ev eff now).db =
      update_payment db rec.course_id rec.email now ev.session.id
        ((ev.session.amount_total : ℚ) / 100)) ∧
    (eff.user_email_raises = false → eff.admin_email_raises = false →
      (payment_webhook db ev eff now).statusCode = 200) ∧
    (eff.user_email_raises = true ∨ eff.admin_email_raises = true →
      (payment_webhook db ev eff now).statusCode = 500) := by
  have h2 : payment_webhook db ev eff now =
      if (eff.user_email_raises || eff.admin_email_raises) = true then
        { statusCode := 500, received := false, error := some "Internal server error",
          db := update_payment db rec.course_id rec.email now ev.session.id
            ((ev.session.amount_total : ℚ) / 100) }
      else
        { statusCode := 200, received := true, error := none,
          db := update_payment db rec.course_id rec.email now ev.session.id
            ((ev.session.amount_total : ℚ) / 100) } := by
    unfold payment_webhook
    rw [hs]
    dsimp only
    rw [hv, if_neg (by simp), if_pos ht, hrid]
    dsimp only
    rw [hq]
  refine ⟨?_, ?_, ?_⟩
  · rw [h2]
    split <;> rfl
  · intro hu ha
    rw [h2, hu, ha]
    rfl
  · intro hor
    rw [h2]
    rcases hor with hu | ha
    · rw [hu]
      rfl
    · rw [ha]
      cases hu2 : eff.user_email_raises <;> rfl


/-- C5 witness: an analytics-only failure keeps the 200; an email failure
turns it into a 500. -/
theorem webhook_side_effect_policy_witness :
    (payment_webhook [wPendingRec] wEvent wMetaFailEff "T").statusCode = 200 ∧
    (payment_webhook [wPendingRec] wEvent wEmailFailEff "T").statusCode = 500 := by
  have h1 := webhook_side_effect_policy [wPendingRec] wEvent wMetaFailEff "T" "sig" "R1"
    wPendingRec rfl rfl rfl rfl (by decide)
  have h2 := webhook_side_effect_policy [wPendingRec] wEvent wEmailFailEff "T" "sig" "R1"
    wPendingRec rfl rfl rfl rfl (by decide)
  exact ⟨h1.2.1 rfl rfl, h2.2.2 (Or.inl rfl)⟩

/-- C9: a validly signed notification of any type other than
`checkout.session.completed` is answered 200 `received: true`, and the
result — response and table alike — is the same whatever the table holds:
no read influences it and no write happens. -/
theorem webhook_ignores_other_event_types (db : List Item) (ev : WebhookEvent)
    (eff : WebhookEffects) (now s : String)
    (hs : ev.sig_header = some s) (hv : ev.signature_valid = true)
    (ht : ev.event_type ≠ "checkout.session.completed") :
    payment_webhook db ev eff now =
      { statusCode := 200, received := true, error := none, db := db } := by
  unfold payment_webhook
  rw [hs]
  dsimp only
  rw [hv, if_neg (by simp), if_neg ht]

/-- C9 witness: a concrete `invoice.paid` notification is acknowledged and
ignored. -/
theorem webhook_ignores_other_event_types_witness :
    payment_webhook [wPendingRec] wOtherTypeEvent {} "T" =
      { statusCode := 200, received := true, error := none, db := [wPendingRec] } :=
  webhook_ignores_other_event_types [wPendingRec] wOtherTypeEvent {} "T" "sig" rfl rfl
    (by decide)

/-! ### Claim theorems: livestream handler and referral recorder -/

/-- C7: a livestream/application submission whose fixed (course_id,
normalized email) key is already occupied is answered 409 and the table is
untouched — a hard conflict, unlike the registration handler's
overwrite-if-not-paid path. -/
theorem livestream_duplicate_hard_conflict (db : List Item) (sub : LsSubmission)
    (fresh_id ts : String) (rec : Item)
    (hm : sub.httpMethod ≠ "OPTIONS") (hb : sub.hasBody = true) (hj : sub.bodyParses = true)
    (hn1 : sub.name.getD "" ≠ "") (hn2 : py_strip (sub.name.getD "") ≠ "")
    (he1 : sub.email.getD "" ≠ "") (he2 : py_strip (sub.email.getD "") ≠ "")
    (hrec : get_item db (ls_course_id (sub.registration_type.getD "livestream"))
        (py_lower (py_strip (sub.email.getD ""))) = some rec) :
    (livestream_handler db sub fresh_id ts).statusCode = 409 ∧
    (livestream_handler db sub fresh_id ts).error
      = some "Registration already exists for this email" ∧
    (livestream_handler db sub fresh_id ts).db = db := by
  have h2 : livestream_handler db sub fresh_id ts =
      { statusCode := 409, error := some "Registration already exists for this email",
        registration_id := none, db := db } := by
    unfold livestream_handler
    rw [if_neg hm, hb, if_neg (by simp), hj, if_neg (by simp),
        if_neg (not_or.mpr ⟨hn1, hn2⟩), if_neg (not_or.mpr ⟨he1, he2⟩)]
    dsimp only
    rw [hrec]
  rw [h2]
  exact ⟨rfl, rfl, rfl⟩

/-- C7 witness: a concrete duplicate livestream signup is answered 409 with
the stored record intact. -/
theorem livestream_duplicate_hard_conflict_witness :
    (livestream_handler [wLsRec] wLsSub "F3" "T3").statusCode = 409 ∧
    (livestream_handler [wLsRec] wLsSub "F3" "T3").error
      = some "Registration already exists for this email" ∧
    (livestream_handler [wLsRec] wLsSub "F3" "T3").db = [wLsRec] :=
  livestream_duplicate_hard_conflict [wLsRec] wLsSub "F3" "T3" wLsRec (by decide) rfl rfl
    (by decide) (by decide) (by decide) (by decide) (by decide)

/-- C8: the referral code `"abc\n"` contains a character outside
`[a-zA-Z0-9_-]`, yet the recorder answers 200 and appends the event —
Python's `$` anchor in `re.match(r'^[a-zA-Z0-9_-]+$', ...)` also matches
just before a single trailing newline, contradicting the source's own
comment that only alphanumerics and common separators are allowed. -/
theorem referral_trailing_newline_accepted :
    "abc\n".data.all code_char_ok = false ∧
    (referral_handler [] wNewlineBody "E1" "T" "ua" "ip").statusCode = 200 ∧
    (referral_handler [] wNewlineBody "E1" "T" "ua" "ip").db =
      [mk_referral_item "E1" "click" "abc\n" "T" "ua" "ip"] := by
  decide

end Spec2Proof
